import Mathlib

/-!
Verification development for the `tsbun` CLI build wrapper.

The code under scrutiny is a small command-line tool that resolves a build
entry point (CLI positional argument, then default files on disk, then an
optional `tsbun.config.ts`), invokes the Bun bundler, reports artifact sizes,
and finally spawns `tsc` to emit type declarations.  The repository contains
two near-duplicate entry scripts (modelled here as `mainA`, the verbose one,
and `mainB`, the terse one) plus a shared config loader, size formatter and
argument-parser wrapper.

Side-effecting collaborators (filesystem existence checks, the dynamic config
import, the bundler, the `tsc` subprocess, the clock) are modelled as fields
of an `Env` record, and each `main` is a pure function from `Env` to a trace
of observable events (`console.log` / `console.error` / `console.warn`
output, directory removal, bundler invocation, subprocess spawn, process
exit).  JavaScript string truthiness (`!entry`, `config?.outdir || "dist"`)
is modelled explicitly: the empty string is falsy.
-/

/-- The `target` enumeration of `TsBunConfig`: `"bun" | "browser" | "node"`. -/
inductive Target where
  | bun
  | browser
  | node
deriving DecidableEq, Repr

/-- Runtime string of a `Target` value, as it is interpolated into logs. -/
def targetStr : Target → String
  | Target.bun => "bun"
  | Target.browser => "browser"
  | Target.node => "node"

/-- The `entry?: string | string[]` field of `TsBunConfig`. -/
inductive ConfigEntry where
  | str (s : String)
  | list (l : List String)
deriving DecidableEq, Repr

/-- The configuration type exported by `tsbun.config.ts`:
`{ entry?: string | string[]; outdir?: string; minify?: boolean; target?: "bun" | "browser" | "node" }`. -/
structure TsBunConfig where
  entry : Option ConfigEntry := none
  outdir : Option String := none
  minify : Option Bool := none
  target : Option Target := none
deriving DecidableEq, Repr

/-- The module object produced by `await import(configUrl)`: an optional
(truthy) `default` export plus the module namespace object itself, read as a
config.  `configOfModule` mirrors `config.default || config`. -/
structure CfgModule where
  dflt : Option TsBunConfig
  self : TsBunConfig
deriving DecidableEq, Repr

/-- `config.default || config`: the default export when present (truthy),
otherwise the module object itself. -/
def configOfModule (m : CfgModule) : TsBunConfig :=
  m.dflt.getD m.self

/-- Models `node:path` `join(cwd, "tsbun.config.ts")` for the one simple case
the code uses: concatenation with a single separator. -/
def pathJoin (a b : String) : String :=
  a ++ "/" ++ b

/-- Result of the config loader: the loaded config (or `null`), the config
file path (or `null`), and the list of `console.warn` messages it emitted. -/
structure LoadResult where
  config : Option TsBunConfig
  path : Option String
  warnings : List String
deriving DecidableEq, Repr

/-- The `{config, path}`-returning `loadConfig` (shared util / verbose
script).  `configExists` is the answer of `Bun.file(configPath).exists()`,
`imp` the outcome of the dynamic `import` (`Except.error` models a thrown
exception, whose message feeds the warning). -/
def loadConfig (cwd : String) (configExists : Bool)
    (imp : Except String CfgModule) : LoadResult :=
  let configPath := pathJoin cwd "tsbun.config.ts"
  if configExists then
    match imp with
    | Except.ok m => ⟨some (configOfModule m), some configPath, []⟩
    | Except.error e =>
        ⟨none, none, ["Warning: Failed to load tsbun.config.ts: " ++ e]⟩
  else ⟨none, none, []⟩

/-- The terse script's `loadConfig`, which returns only the config (or
`null`); same existence check, import and warning behaviour. -/
def loadConfigB (configExists : Bool) (imp : Except String CfgModule) :
    Option TsBunConfig × List String :=
  if configExists then
    match imp with
    | Except.ok m => (some (configOfModule m), [])
    | Except.error e =>
        (none, ["Warning: Failed to load tsbun.config.ts: " ++ e])
  else (none, [])

/-- `const defaultEntries = ["index.ts", "src/index.ts"]`. -/
def defaultEntries : List String :=
  ["index.ts", "src/index.ts"]

/-- The entry-point determination of both scripts, with the empty string
standing for JavaScript `undefined`/falsy (`let entry = positionals[0]` is
`undefined` when absent, and every guard on `entry` is the truthiness test
`!entry`):

```
let entry = positionals[0]
if (!entry) { for (const e of defaultEntries) if (exists e) { entry = e; break } }
if (!entry && config?.entry) {
  if (typeof config.entry === "string") entry = config.entry
  else if (Array.isArray(config.entry) && config.entry.length > 0) entry = config.entry[0]
}
```

`config?.entry` is truthy for any array (even empty) and for a non-empty
string. -/
def resolveEntryStr (positionals : List String) (fe : String → Bool)
    (config : Option TsBunConfig) : String :=
  let e0 := (positionals.head?).getD ""
  let e1 :=
    if e0 = "" then
      match defaultEntries.find? fe with
      | some e => e
      | none => e0
    else e0
  if e1 = "" then
    match config with
    | some c =>
        match c.entry with
        | some (ConfigEntry.str s) => if s = "" then e1 else s
        | some (ConfigEntry.list l) =>
            match l with
            | [] => e1
            | x :: _ => x
        | none => e1
    | none => e1
  else e1

/-- The resolved entry: `some e` exactly when the final `entry` variable is
truthy (the code's `if (!entry) { console.error(...); process.exit(1) }`
guard fails), `none` when the script reports the missing entry point. -/
def resolveEntry (positionals : List String) (fe : String → Bool)
    (config : Option TsBunConfig) : Option String :=
  let e := resolveEntryStr positionals fe config
  if e = "" then none else some e

/-- `const outdir = config?.outdir || "dist"` — JS truthiness: an absent
config, absent field, or empty string all yield `"dist"`. -/
def resolveOutdir (config : Option TsBunConfig) : String :=
  match config.bind TsBunConfig.outdir with
  | some s => if s = "" then "dist" else s
  | none => "dist"

/-- `const minify = config?.minify !== undefined ? config.minify : true`. -/
def resolveMinify (config : Option TsBunConfig) : Bool :=
  (config.bind TsBunConfig.minify).getD true

/-- `const target = config?.target || "bun"` — every `Target` value is a
non-empty (truthy) string, so this is a plain default. -/
def resolveTarget (config : Option TsBunConfig) : Target :=
  (config.bind TsBunConfig.target).getD Target.bun

/-- `const sizes = ["B", "KB", "MB", "GB", "TB"]`. -/
def sizeUnits : List String :=
  ["B", "KB", "MB", "GB", "TB"]

/-- `(num / den).toFixed(2)` for a non-negative exact rational `num / den`
(`den ≠ 0`): round to the nearest hundredth, ties away from zero, and render
with exactly two decimal digits. -/
def toFixed2 (num den : Nat) : String :=
  let scaled := (num * 200 + den) / (den * 2)
  let ip := scaled / 100
  let fp := scaled % 100
  toString ip ++ "." ++ (if fp < 10 then "0" ++ toString fp else toString fp)

/-- The byte-count formatter:

```
if (bytes === 0) return "0 B"
const i = Math.floor(Math.log(bytes) / Math.log(1024))
return `${(bytes / Math.pow(1024, i)).toFixed(2)} ${sizes[i]}`
```

The unit index `Math.floor(Math.log bytes / Math.log 1024)` is computed in
binary64: it is modelled here by the exact integer logarithm
`Nat.log 1024 bytes`, which agrees with the correctly-rounded double
computation for every `bytes < 1024^5 - 3` and at `bytes = 1024^5`, but not
everywhere: the first deviation is at `bytes = 1024^5 - 3` (also `-2`, `-1`),
where `ln bytes` and `ln (1024^5)` round to the same double (their true
values differ by at most `3 * 2^-50` ≈ 2.7e-15 while the double spacing at
34.66 is 2^-47 ≈ 7.1e-15, and `ln (1024^5)` sits close enough to the lower
edge of its rounding interval), so the program computes index 5 and prints
`"1.00 undefined"` there while the exact logarithm gives index 4.  Theorems
about `formatSize` therefore confine themselves to byte counts in the
verified agreement region.  The value `bytes / 1024^i` is division by a
power of two of an integer below `2^53`, hence exact in binary64, and
`toFixed(2)` on it rounds to the nearest hundredth, ties away from zero,
exactly as `toFixed2` does.  An out-of-range index into `sizes` is
JavaScript `undefined`, which the template literal renders as the string
`"undefined"`. -/
def formatSize (bytes : Nat) : String :=
  if bytes = 0 then "0 B"
  else
    let i := Nat.log 1024 bytes
    toFixed2 bytes (1024 ^ i) ++ " " ++ sizeUnits.getD i "undefined"

/-- Modelled from the spec: the package `name` imported from `package.json`,
which is not part of the source tree; the spec calls the tool `tsbun`. -/
def pkgName : String := "tsbun"

/-- Modelled from the spec: the package `version` from `package.json` (value
not recorded in the source tree; no claim depends on the concrete digits). -/
def pkgVersion : String := "0.0.0"

/-- Modelled from the spec: the `author` fields from `package.json`
(placeholder values; no claim depends on them). -/
def authorName : String := "author"

/-- Modelled from the spec: author email from `package.json`. -/
def authorEmail : String := "author@example.com"

/-- Modelled from the spec: author url from `package.json`. -/
def authorUrl : String := "https://example.com"

/-- The `helpMessage` template literal of both scripts. -/
def helpMessage : String :=
  "Version:\n  " ++ pkgName ++ "@" ++ pkgVersion ++
  "\n\nUsage:\n  $ " ++ pkgName ++ " [entry] [options]" ++
  "\n\nOptions:\n  -v, --version  Display version\n  -h, --help     Display help message\n  --watch        Watch mode" ++
  "\n\nAuthor:\n  " ++ authorName ++ " <" ++ authorEmail ++ "> (" ++ authorUrl ++ ")"

/-- The `<name>@<version>` line printed by the `--version` branch. -/
def versionLine : String :=
  pkgName ++ "@" ++ pkgVersion

/-- The fatal message of the entry-resolution failure branch. -/
def noEntryMsg : String :=
  "Could not find entry point (index.ts or src/index.ts). Please specify one."

/-- The argument list built for the `tsc` invocation (identical in both
scripts): the fixed declaration-emission flags, then either
`--project tsconfig.json` or the fallback flag set ending in the entry. -/
def tscArgs (hasTsConfig : Bool) (outdir entry : String) : List String :=
  let base := ["--declaration", "--emitDeclarationOnly", "--noEmit", "false",
    "--outDir", outdir]
  if hasTsConfig then
    base ++ ["--project", "tsconfig.json"]
  else
    base ++ ["--esModuleInterop", "--skipLibCheck", "--moduleResolution",
      "bundler", "--target", "esnext", entry]

/-- One artifact of a successful bundle: `{path, size}`. -/
structure BuildOutput where
  path : String
  size : Nat
deriving DecidableEq, Repr

/-- The bundler's result object: `{success, logs, outputs}`. -/
structure BuildResult where
  success : Bool
  logs : List String
  outputs : List BuildOutput
deriving DecidableEq, Repr

/-- Observable events of one invocation, in program order. -/
inductive Event where
  | log (s : String)
  | warn (s : String)
  | err (s : String)
  | loadCfg
  | rmDir (d : String)
  | bundle (entry outdir : String) (target : Target) (minify : Bool)
  | spawn (cmd : List String)
  | exit (code : Nat)
deriving DecidableEq, Repr

/-- The environment of one invocation whose argument parsing succeeded:
parsed flags and positionals, the filesystem's answers, the dynamic-import
outcome for `tsbun.config.ts`, the bundler's result, the `tsc` subprocess
exit code, the `relative(cwd, ·)` path function and the measured duration. -/
structure Env where
  cwd : String
  positionals : List String
  version : Bool
  help : Bool
  watch : Bool
  fileExists : String → Bool
  configExists : Bool
  configImport : Except String CfgModule
  buildResult : BuildResult
  tscExit : Int
  relPath : String → String
  durationMs : Nat

/-- The config the verbose script works with after `await loadConfig()`. -/
def loadedConfig (env : Env) : Option TsBunConfig :=
  (loadConfig env.cwd env.configExists env.configImport).config

/-- Verbose script, events from the successful entry resolution up to and
including the bundler call: the `CLI ...` status logs, the unconditional
`rmSync(outdir, {recursive: true, force: true})`, `ESM Build start`, and the
`bunBuild({entrypoints: [entry], outdir, target, minify})` invocation. -/
def preBuildA (env : Env) (config : Option TsBunConfig)
    (configPath : Option String) (entry : String) : List Event :=
  let outdir := resolveOutdir config
  let hasTs := env.fileExists "tsconfig.json"
  [Event.log ("CLI Building entry: \x7b\"" ++ entry ++ "\":\"" ++ entry ++ "\"\x7d")] ++
  (if hasTs then [Event.log "CLI Using tsconfig: tsconfig.json"] else []) ++
  [Event.log ("CLI " ++ pkgName ++ " v" ++ pkgVersion)] ++
  (match configPath with
   | some p => [Event.log ("CLI Using tsbun config: " ++ p)]
   | none => []) ++
  [Event.log ("CLI Target: " ++ targetStr (resolveTarget config)),
   Event.log "CLI Cleaning output folder",
   Event.rmDir outdir,
   Event.log "ESM Build start",
   Event.bundle entry outdir (resolveTarget config) (resolveMinify config)]

/-- Verbose script, events after the bundler returns: on failure,
`Build failed!` plus every diagnostic, exit 1; on success, one size line per
artifact, the duration line, the `tsc` spawn, then exit 0 or the
type-generation failure. -/
def postBuildA (env : Env) (config : Option TsBunConfig) (entry : String) :
    List Event :=
  let outdir := resolveOutdir config
  let hasTs := env.fileExists "tsconfig.json"
  if env.buildResult.success then
    (env.buildResult.outputs.map fun o =>
      Event.log ("ESM " ++ env.relPath o.path ++ " " ++ formatSize o.size)) ++
    [Event.log ("ESM ⚡️ Build success in " ++ toString env.durationMs ++ "ms"),
     Event.spawn (["bun", "x", "tsc"] ++ tscArgs hasTs outdir entry)] ++
    (if env.tscExit = 0 then [Event.exit 0]
     else [Event.err "Type generation failed!", Event.exit 1])
  else
    [Event.err "Build failed!"] ++
    env.buildResult.logs.map Event.err ++
    [Event.exit 1]

/-- Verbose script after config loading: entry resolution, then either the
fatal missing-entry branch or the build pipeline. -/
def mainACont (env : Env) (config : Option TsBunConfig)
    (configPath : Option String) : List Event :=
  match resolveEntry env.positionals env.fileExists config with
  | none => [Event.err noEntryMsg, Event.exit 1]
  | some entry =>
      preBuildA env config configPath entry ++ postBuildA env config entry

/-- The verbose entry script (`main`, first variant): version/help
short-circuits, config load (the `loadCfg` event marks the dynamic-import
collaborator being invoked, followed by its warnings), then the rest. -/
def mainA (env : Env) : List Event :=
  if env.version then
    [Event.log versionLine, Event.exit 0]
  else if env.help then
    [Event.log helpMessage, Event.exit 0]
  else
    let lc := loadConfig env.cwd env.configExists env.configImport
    [Event.loadCfg] ++ lc.warnings.map Event.warn ++
      mainACont env lc.config lc.path

/-- Terse script after config loading: the `Using tsbun.config.ts...` notice
when a config loaded, entry resolution, the `Building <entry>...` log, the
guarded `rmSync`, bundling, and the type-generation tail. -/
def mainBCont (env : Env) (config : Option TsBunConfig) : List Event :=
  (if config.isSome then [Event.log "Using tsbun.config.ts..."] else []) ++
  match resolveEntry env.positionals env.fileExists config with
  | none => [Event.err noEntryMsg, Event.exit 1]
  | some entry =>
      let outdir := resolveOutdir config
      let hasTs := env.fileExists "tsconfig.json"
      [Event.log ("Building " ++ entry ++ "...")] ++
      (if env.fileExists outdir then [Event.rmDir outdir] else []) ++
      [Event.bundle entry outdir (resolveTarget config) (resolveMinify config)] ++
      (if env.buildResult.success then
        [Event.log "JS Bundle created!", Event.log "Generating types..."] ++
        (if hasTs then [Event.log "Using tsconfig.json..."] else []) ++
        [Event.spawn (["bun", "x", "tsc"] ++ tscArgs hasTs outdir entry)] ++
        (if env.tscExit = 0 then [Event.log "Build complete!", Event.exit 0]
         else [Event.err "Type generation failed!", Event.exit 1])
      else
        [Event.err "Build failed!"] ++
        env.buildResult.logs.map Event.err ++
        [Event.exit 1])

/-- The terse entry script (`main`, second variant). -/
def mainB (env : Env) : List Event :=
  if env.version then
    [Event.log versionLine, Event.exit 0]
  else if env.help then
    [Event.log helpMessage, Event.exit 0]
  else
    let lc := loadConfigB env.configExists env.configImport
    [Event.loadCfg] ++ lc.2.map Event.warn ++ mainBCont env lc.1

/-- Base concrete environment used by witness instantiations: one positional
entry, empty filesystem, no config file, successful empty build. -/
def envBase : Env where
  cwd := "/proj"
  positionals := ["cli.ts"]
  version := false
  help := false
  watch := false
  fileExists := fun _ => false
  configExists := false
  configImport := Except.error "boom"
  buildResult := { success := true, logs := [], outputs := [] }
  tscExit := 0
  relPath := fun s => s
  durationMs := 5

/-- Concrete environment with a failing bundler result. -/
def envC4 : Env :=
  { envBase with buildResult := { success := false, logs := ["oops", "bad"], outputs := [] } }

/-- Concrete environment with nothing to resolve an entry from. -/
def envC8 : Env :=
  { envBase with positionals := [] }

/-- A config whose `entry` field is the empty list. -/
def cfgC9 : TsBunConfig :=
  { entry := some (ConfigEntry.list []) }

/-- Concrete environment whose config loads successfully with an empty
`entry` list, and no positional or default entry is available. -/
def envC9 : Env :=
  { envBase with
      positionals := [],
      configExists := true,
      configImport := Except.ok ⟨some cfgC9, {}⟩ }

/-- Concrete environment with both `--version` and `--help` parsed true. -/
def envC10 : Env :=
  { envBase with version := true, help := true }

/-- A config setting all three build options explicitly. -/
def cfgC6 : TsBunConfig :=
  { outdir := some "out", minify := some false, target := some Target.node }

theorem loadConfigB_config (cwd : String) (ex : Bool) (imp : Except String CfgModule) :
    (loadConfigB ex imp).1 = (loadConfig cwd ex imp).config := by
  cases ex <;> cases imp <;> rfl

theorem loadConfigB_warnings (cwd : String) (ex : Bool) (imp : Except String CfgModule) :
    (loadConfigB ex imp).2 = (loadConfig cwd ex imp).warnings := by
  cases ex <;> cases imp <;> rfl

theorem spawn_not_mem_preBuildA (env : Env) (c : Option TsBunConfig)
    (p : Option String) (entry : String) (args : List String) :
    Event.spawn args ∉ preBuildA env c p entry := by
  cases h : env.fileExists "tsconfig.json" <;> cases p <;>
    simp [preBuildA, h]

/-- C5: the `tsc` invocation's argument list is the fixed declaration flags
`--declaration --emitDeclarationOnly --noEmit false --outDir <outdir>`
followed, when `tsconfig.json` exists, by exactly `--project tsconfig.json`,
and otherwise by exactly the fallback flags
`--esModuleInterop --skipLibCheck --moduleResolution bundler --target esnext`
and the resolved entry; in particular the `--project` flag is only added in
the first case and no fallback flag is added there. -/
theorem tscArgs_flagSets (outdir entry : String) :
    tscArgs true outdir entry =
      ["--declaration", "--emitDeclarationOnly", "--noEmit", "false",
       "--outDir", outdir, "--project", "tsconfig.json"] ∧
    tscArgs false outdir entry =
      ["--declaration", "--emitDeclarationOnly", "--noEmit", "false",
       "--outDir", outdir, "--esModuleInterop", "--skipLibCheck",
       "--moduleResolution", "bundler", "--target", "esnext", entry] :=
  ⟨rfl, rfl⟩

/-- C6 counterexample: a config whose `outdir` field is the empty string is
given, yet the effective outdir is `"dist"`, not the given value — JS
truthiness (`config?.outdir || "dist"`) discards the empty string. -/
theorem effectiveOutdir_refuted :
    ¬ (∀ (c : TsBunConfig) (s : String), c.outdir = some s →
        resolveOutdir (some c) = s) := by
  intro h
  have h1 := h { outdir := some "" } "" rfl
  have h2 : resolveOutdir (some { outdir := some "" }) = "dist" := rfl
  rw [h2] at h1
  exact absurd h1 (by decide)

/-- C6 (amended): the effective `outdir` is the config's value when it is
given and non-empty, and `"dist"` when it is absent or the empty string;
`minify` is the config's value whenever explicitly set (including `false`),
else `true`; `target` is the config's value when given, else `bun`. -/
theorem effectiveOptions_resolution (config : Option TsBunConfig) :
    (∀ c s, config = some c → c.outdir = some s → s ≠ "" →
      resolveOutdir config = s) ∧
    ((config.bind TsBunConfig.outdir = none ∨
      config.bind TsBunConfig.outdir = some "") →
      resolveOutdir config = "dist") ∧
    (∀ c m, config = some c → c.minify = some m → resolveMinify config = m) ∧
    (config.bind TsBunConfig.minify = none → resolveMinify config = true) ∧
    (∀ c t, config = some c → c.target = some t → resolveTarget config = t) ∧
    (config.bind TsBunConfig.target = none →
      resolveTarget config = Target.bun) := by
  refine ⟨?_, ?_, ?_, ?_, ?_, ?_⟩
  · rintro c s rfl hs hne
    simp [resolveOutdir, hs, hne]
  · rintro (h | h) <;> simp [resolveOutdir, h]
  · rintro c m rfl hm
    simp [resolveMinify, hm]
  · intro h
    simp [resolveMinify, h]
  · rintro c t rfl ht
    simp [resolveTarget, ht]
  · intro h
    simp [resolveTarget, h]

/-- C6 witness: a config setting all three fields (with `minify := false`)
resolves to exactly those values. -/
theorem effectiveOptions_resolution_witness :
    resolveOutdir (some cfgC6) = "out" ∧
    resolveMinify (some cfgC6) = false ∧
    resolveTarget (some cfgC6) = Target.node := by
  have h := effectiveOptions_resolution (some cfgC6)
  exact ⟨h.1 _ _ rfl rfl (by decide), h.2.2.1 _ _ rfl rfl,
    h.2.2.2.2.1 _ _ rfl rfl⟩

/-- C1 counterexample: the first positional CLI argument is present (the
empty string) but is not used verbatim as the resolved entry — the code's
truthiness guard `!entry` treats it as absent and falls through to the
default candidates, here resolving `index.ts` instead. -/
theorem entryResolution_cli_verbatim_refuted :
    ¬ (∀ (pos : List String) (fe : String → Bool) (cfg : Option TsBunConfig)
        (p : String), pos.head? = some p → resolveEntry pos fe cfg = some p) := by
  intro h
  have h1 := h [""] (fun f => f == "index.ts") none "" rfl
  have h2 : resolveEntry [""] (fun f => f == "index.ts") none =
      some "index.ts" := rfl
  rw [h2] at h1
  exact absurd h1 (by decide)

/-- C1 (amended): entry resolution follows the strict priority order with
values screened by JS truthiness: a present *non-empty* first positional is
the resolved entry (used verbatim, no existence check); otherwise (absent or
empty positional) the first existing default candidate wins; otherwise, if
the config's `entry` is a non-empty string it is the resolved entry, and if
it is a non-empty list whose first element is non-empty, that first element
is the resolved entry. -/
theorem entryResolution_priority_truthy (pos : List String)
    (fe : String → Bool) (cfg : Option TsBunConfig) :
    (∀ p, pos.head? = some p → p ≠ "" → resolveEntry pos fe cfg = some p) ∧
    ((pos.head?).getD "" = "" →
      (∀ d, defaultEntries.find? fe = some d →
        resolveEntry pos fe cfg = some d) ∧
      (defaultEntries.find? fe = none →
        (∀ c s, cfg = some c → c.entry = some (ConfigEntry.str s) → s ≠ "" →
          resolveEntry pos fe cfg = some s) ∧
        (∀ c x l, cfg = some c → c.entry = some (ConfigEntry.list (x :: l)) →
          x ≠ "" → resolveEntry pos fe cfg = some x))) := by
  refine ⟨?_, fun h0 => ⟨?_, fun hfd => ⟨?_, ?_⟩⟩⟩
  · intro p hp hne
    simp [resolveEntry, resolveEntryStr, hp, hne]
  · intro d hd
    have hdm : d ∈ defaultEntries := List.mem_of_find?_eq_some hd
    have hdne : d ≠ "" := by
      simp only [defaultEntries, List.mem_cons, List.mem_singleton,
        List.not_mem_nil, or_false] at hdm
      rcases hdm with rfl | rfl <;> decide
    simp [resolveEntry, resolveEntryStr, h0, hd, hdne]
  · rintro c s rfl hcs hne
    simp [resolveEntry, resolveEntryStr, h0, hfd, hcs, hne]
  · rintro c x l rfl hcl hne
    simp [resolveEntry, resolveEntryStr, h0, hfd, hcl, hne]

/-- C1 witness: a non-empty positional is used verbatim even though no file
exists on disk. -/
theorem entryResolution_priority_truthy_witness :
    resolveEntry ["cli.ts"] (fun _ => false) none = some "cli.ts" :=
  (entryResolution_priority_truthy ["cli.ts"] (fun _ => false) none).1
    "cli.ts" rfl (by decide)

/-- C2 counterexample: at `1024^5` bytes (one pebibyte) the computed unit
index is 5 (the double ratio is exactly 5.0 there, agreeing with the exact
logarithm), past the end of the `sizes` table, so the printed unit is the
string `"undefined"` — not a unit drawn from {B, KB, MB, GB, TB} as claimed
for every non-negative byte count.  The program already misbehaves the same
way at `1024^5 - 3`, `-2` and `-1`, where the rounded double logarithm
collides with that of `1024^5`; those three inputs are outside this model's
agreement region (see `formatSize`) and outside the amended claim. -/
theorem formatSize_unit_overflow :
    formatSize (1024 ^ 5) = "1.00 undefined" ∧
    "undefined" ∉ sizeUnits := by
  constructor
  · have hlog : Nat.log 1024 (1024 ^ 5) = 5 := @Nat.log_pow 1024 (by norm_num) 5
    have hne : (1024 ^ 5 : Nat) ≠ 0 := by norm_num
    simp only [formatSize, if_neg hne, hlog]
    rfl
  · decide

/-- C2 (amended): for every byte count `b < 1024^5 - 3`, `formatSize b`
returns `"<value> <unit>"` where the unit is the `i`-th entry of the size
table (`i ≤ 4`, a unit drawn from {B, KB, MB, GB, TB}), the scale exponent
`i` satisfies `1024^i ≤ b < 1024^(i+1)` (i.e. the scaled magnitude
`b / 1024^i` lies in `[1, 1024)`), `i = 0` (unit B) whenever `b < 1024`,
the value is rendered with exactly two decimal digits, and
`formatSize 0 = "0 B"` exactly; the function is total.  From
`b = 1024^5 - 3` on, the double unit index reaches 5 and leaves the table
(see the counterexample); the bound `1024^5 - 3` keeps the quantified range
inside the region where the exact-logarithm model provably agrees with the
program's binary64 computation. -/
theorem formatSize_unit_window (b : Nat) (hb : b < 1024 ^ 5 - 3) :
    (b = 0 → formatSize b = "0 B") ∧
    (b ≠ 0 → ∃ i u, i ≤ 4 ∧ u ∈ sizeUnits ∧
      formatSize b = toFixed2 b (1024 ^ i) ++ " " ++ u ∧
      1024 ^ i ≤ b ∧ b < 1024 ^ (i + 1) ∧ (b < 1024 → i = 0) ∧
      (∃ q r : Nat, r < 100 ∧ toFixed2 b (1024 ^ i) =
        toString q ++ "." ++
          (if r < 10 then "0" ++ toString r else toString r))) := by
  constructor
  · intro h0
    simp [formatSize, h0]
  · intro hb0
    have hb5 : b < 1024 ^ 5 := Nat.lt_of_lt_of_le hb (by norm_num)
    have hlt : Nat.log 1024 b < 5 := Nat.log_lt_of_lt_pow hb0 hb5
    refine ⟨Nat.log 1024 b, sizeUnits.getD (Nat.log 1024 b) "undefined",
      Nat.lt_succ_iff.mp hlt,
      (by decide : ∀ j, j < 5 → sizeUnits.getD j "undefined" ∈ sizeUnits)
        _ hlt,
      ?_, Nat.pow_log_le_self 1024 hb0,
      Nat.lt_pow_succ_log_self (by norm_num) b,
      fun hsmall => Nat.log_of_lt hsmall,
      ⟨(b * 200 + 1024 ^ Nat.log 1024 b) / (1024 ^ Nat.log 1024 b * 2) / 100,
       (b * 200 + 1024 ^ Nat.log 1024 b) / (1024 ^ Nat.log 1024 b * 2) % 100,
       Nat.mod_lt _ (by norm_num), rfl⟩⟩
    simp [formatSize, hb0]

/-- C2 witness: at 2048 bytes the theorem instantiates to unit KB with the
window `1024 ≤ 2048 < 1024^2`. -/
theorem formatSize_unit_window_witness :
    (2048 < 1024 ^ 5 - 3) ∧
    ((2048 = 0 → formatSize 2048 = "0 B") ∧
     (2048 ≠ 0 → ∃ i u, i ≤ 4 ∧ u ∈ sizeUnits ∧
       formatSize 2048 = toFixed2 2048 (1024 ^ i) ++ " " ++ u ∧
       1024 ^ i ≤ 2048 ∧ 2048 < 1024 ^ (i + 1) ∧ (2048 < 1024 → i = 0) ∧
       (∃ q r : Nat, r < 100 ∧ toFixed2 2048 (1024 ^ i) =
         toString q ++ "." ++
           (if r < 10 then "0" ++ toString r else toString r)))) :=
  ⟨by decide, formatSize_unit_window 2048 (by decide)⟩

theorem mainACont_configExists (env : Env) (b : Bool)
    (c : Option TsBunConfig) (p : Option String) :
    mainACont { env with configExists := b } c p = mainACont env c p := rfl

theorem mainBCont_configExists (env : Env) (b : Bool)
    (c : Option TsBunConfig) :
    mainBCont { env with configExists := b } c = mainBCont env c := rfl

/-- C3: when `tsbun.config.ts` exists but the dynamic import throws,
`loadConfig` emits the warning and returns `{config: null, path: null}`; the
failure never propagates (the model is total), and both entry scripts behave
exactly as on a run with no config file, apart from the extra warning
line. -/
theorem loadConfig_failure_degrades (cwd e : String) (env : Env)
    (hv : env.version = false) (hh : env.help = false)
    (hc : env.configExists = true)
    (hi : env.configImport = Except.error e) :
    loadConfig cwd true (Except.error e) =
      ⟨none, none, ["Warning: Failed to load tsbun.config.ts: " ++ e]⟩ ∧
    mainA env = [Event.loadCfg,
      Event.warn ("Warning: Failed to load tsbun.config.ts: " ++ e)] ++
      mainACont env none none ∧
    mainA { env with configExists := false } =
      [Event.loadCfg] ++ mainACont env none none ∧
    mainB env = [Event.loadCfg,
      Event.warn ("Warning: Failed to load tsbun.config.ts: " ++ e)] ++
      mainBCont env none ∧
    mainB { env with configExists := false } =
      [Event.loadCfg] ++ mainBCont env none := by
  refine ⟨rfl, ?_, ?_, ?_, ?_⟩
  · simp [mainA, hv, hh, hc, hi, loadConfig]
  · simp [mainA, hv, hh, loadConfig]
    rfl
  · simp [mainB, hv, hh, hc, hi, loadConfigB]
  · simp [mainB, hv, hh, loadConfigB]
    rfl

/-- C3 witness: the degradation at a concrete failing-import environment. -/
theorem loadConfig_failure_degrades_witness :
    loadConfig "/proj" true (Except.error "boom") =
      ⟨none, none, ["Warning: Failed to load tsbun.config.ts: " ++ "boom"]⟩ ∧
    mainA { envBase with configExists := true } = [Event.loadCfg,
      Event.warn ("Warning: Failed to load tsbun.config.ts: " ++ "boom")] ++
      mainACont { envBase with configExists := true } none none ∧
    mainA { { envBase with configExists := true } with configExists := false } =
      [Event.loadCfg] ++ mainACont { envBase with configExists := true } none none ∧
    mainB { envBase with configExists := true } = [Event.loadCfg,
      Event.warn ("Warning: Failed to load tsbun.config.ts: " ++ "boom")] ++
      mainBCont { envBase with configExists := true } none ∧
    mainB { { envBase with configExists := true } with configExists := false } =
      [Event.loadCfg] ++ mainBCont { envBase with configExists := true } none :=
  loadConfig_failure_degrades "/proj" "boom"
    { envBase with configExists := true } rfl rfl rfl rfl

/-- C7: with `--version` parsed true, or `--help` parsed true (and
`--version` false), both scripts print the version line, respectively the
help text, and exit 0 immediately: the config loader is never invoked and
the bundler is never invoked. -/
theorem shortCircuit_version_help (env : Env) :
    (env.version = true →
      mainA env = [Event.log versionLine, Event.exit 0] ∧
      mainB env = [Event.log versionLine, Event.exit 0] ∧
      Event.loadCfg ∉ mainA env ∧ Event.loadCfg ∉ mainB env ∧
      (∀ en o t m, Event.bundle en o t m ∉ mainA env) ∧
      (∀ en o t m, Event.bundle en o t m ∉ mainB env)) ∧
    (env.version = false → env.help = true →
      mainA env = [Event.log helpMessage, Event.exit 0] ∧
      mainB env = [Event.log helpMessage, Event.exit 0] ∧
      Event.loadCfg ∉ mainA env ∧ Event.loadCfg ∉ mainB env ∧
      (∀ en o t m, Event.bundle en o t m ∉ mainA env) ∧
      (∀ en o t m, Event.bundle en o t m ∉ mainB env)) := by
  constructor
  · intro hv
    have hA : mainA env = [Event.log versionLine, Event.exit 0] := by
      simp [mainA, hv]
    have hB : mainB env = [Event.log versionLine, Event.exit 0] := by
      simp [mainB, hv]
    exact ⟨hA, hB, by simp [hA], by simp [hB],
      fun en o t m => by simp [hA], fun en o t m => by simp [hB]⟩
  · intro hv hh
    have hA : mainA env = [Event.log helpMessage, Event.exit 0] := by
      simp [mainA, hv, hh]
    have hB : mainB env = [Event.log helpMessage, Event.exit 0] := by
      simp [mainB, hv, hh]
    exact ⟨hA, hB, by simp [hA], by simp [hB],
      fun en o t m => by simp [hA], fun en o t m => by simp [hB]⟩

/-- C7 witness: both short-circuits at concrete environments. -/
theorem shortCircuit_version_help_witness :
    mainA { envBase with version := true } =
      [Event.log versionLine, Event.exit 0] ∧
    mainA { envBase with help := true } =
      [Event.log helpMessage, Event.exit 0] :=
  ⟨((shortCircuit_version_help { envBase with version := true }).1 rfl).1,
   ((shortCircuit_version_help { envBase with help := true }).2 rfl rfl).1⟩

/-- C10: when both `--version` and `--help` parse true, the version branch
wins in both scripts: only the `<name>@<version>` line is printed, the
process exits 0, and the help text is never printed. -/
theorem version_precedes_help (env : Env)
    (hv : env.version = true) (_hh : env.help = true) :
    mainA env = [Event.log versionLine, Event.exit 0] ∧
    mainB env = [Event.log versionLine, Event.exit 0] ∧
    Event.log helpMessage ∉ mainA env ∧
    Event.log helpMessage ∉ mainB env := by
  have hA : mainA env = [Event.log versionLine, Event.exit 0] := by
    simp [mainA, hv]
  have hB : mainB env = [Event.log versionLine, Event.exit 0] := by
    simp [mainB, hv]
  refine ⟨hA, hB, ?_, ?_⟩
  · rw [hA]; decide
  · rw [hB]; decide

/-- C10 witness: at a concrete environment with both flags set. -/
theorem version_precedes_help_witness :
    mainA envC10 = [Event.log versionLine, Event.exit 0] ∧
    mainB envC10 = [Event.log versionLine, Event.exit 0] ∧
    Event.log helpMessage ∉ mainA envC10 ∧
    Event.log helpMessage ∉ mainB envC10 :=
  version_precedes_help envC10 rfl rfl

/-- C8: before bundling, exactly one of the two outcomes holds in both
scripts: if no entry resolves, the run prints the "could not find entry
point" message and ends with exit 1 (and the bundler is never reached);
if an entry resolves, the bundler is invoked with it. -/
theorem entry_resolution_dichotomy (env : Env)
    (hv : env.version = false) (hh : env.help = false) :
    (resolveEntry env.positionals env.fileExists (loadedConfig env) = none →
      mainA env = [Event.loadCfg] ++
        (loadConfig env.cwd env.configExists env.configImport).warnings.map
          Event.warn ++
        [Event.err noEntryMsg, Event.exit 1] ∧
      mainB env = [Event.loadCfg] ++
        (loadConfig env.cwd env.configExists env.configImport).warnings.map
          Event.warn ++
        (if (loadedConfig env).isSome then
          [Event.log "Using tsbun.config.ts..."] else []) ++
        [Event.err noEntryMsg, Event.exit 1]) ∧
    (∀ e, resolveEntry env.positionals env.fileExists (loadedConfig env) =
        some e →
      Event.bundle e (resolveOutdir (loadedConfig env))
        (resolveTarget (loadedConfig env))
        (resolveMinify (loadedConfig env)) ∈ mainA env ∧
      Event.bundle e (resolveOutdir (loadedConfig env))
        (resolveTarget (loadedConfig env))
        (resolveMinify (loadedConfig env)) ∈ mainB env) := by
  constructor
  · intro hnone
    simp only [loadedConfig] at hnone
    constructor
    · simp [mainA, hv, hh, mainACont, hnone]
    · simp [mainB, hv, hh, mainBCont, hnone, loadedConfig,
        loadConfigB_config env.cwd, loadConfigB_warnings env.cwd]
  · intro e he
    simp only [loadedConfig] at he
    constructor
    · simp [mainA, hv, hh, mainACont, he, preBuildA, loadedConfig]
    · simp [mainB, hv, hh, mainBCont, he, loadedConfig,
        loadConfigB_config env.cwd, loadConfigB_warnings env.cwd]

/-- C8 witness: with no positional, no default file and no config, both
scripts fail with the "could not find entry point" message and exit 1. -/
theorem entry_resolution_dichotomy_witness :
    mainA envC8 = [Event.loadCfg, Event.err noEntryMsg, Event.exit 1] ∧
    mainB envC8 = [Event.loadCfg, Event.err noEntryMsg, Event.exit 1] := by
  have h := (entry_resolution_dichotomy envC8 rfl rfl).1 rfl
  exact ⟨by rw [h.1]; rfl, by rw [h.2]; rfl⟩

/-- C9: with no positional argument and neither default file on disk, a
loaded config whose `entry` is the empty list resolves no entry — exactly
like a config with no `entry` field — and both scripts exit 1 with the
"could not find entry point" message instead of using an element of the
empty list. -/
theorem emptyEntryList_as_missing (env : Env) (c : TsBunConfig)
    (hv : env.version = false) (hh : env.help = false)
    (hp : env.positionals = [])
    (h1 : env.fileExists "index.ts" = false)
    (h2 : env.fileExists "src/index.ts" = false)
    (hc : loadedConfig env = some c)
    (he : c.entry = some (ConfigEntry.list [])) :
    resolveEntry env.positionals env.fileExists (some c) = none ∧
    resolveEntry env.positionals env.fileExists
      (some { c with entry := none }) = none ∧
    mainA env = [Event.loadCfg, Event.err noEntryMsg, Event.exit 1] ∧
    mainB env = [Event.loadCfg, Event.log "Using tsbun.config.ts...",
      Event.err noEntryMsg, Event.exit 1] := by
  have hre : resolveEntry env.positionals env.fileExists (some c) = none := by
    simp [resolveEntry, resolveEntryStr, defaultEntries, hp, h1, h2, he,
      List.find?]
  have hre2 : resolveEntry env.positionals env.fileExists
      (some { c with entry := none }) = none := by
    simp [resolveEntry, resolveEntryStr, defaultEntries, hp, h1, h2,
      List.find?]
  cases hex : env.configExists with
  | false =>
      simp [loadedConfig, loadConfig, hex] at hc
  | true =>
      cases himp : env.configImport with
      | error msg =>
          simp [loadedConfig, loadConfig, hex, himp] at hc
      | ok m =>
          have hcm : configOfModule m = c := by
            simp [loadedConfig, loadConfig, hex, himp] at hc
            exact hc
          refine ⟨hre, hre2, ?_, ?_⟩
          · simp [mainA, hv, hh, hex, himp, loadConfig, mainACont, hcm, hre]
          · simp [mainB, hv, hh, hex, himp, loadConfigB, mainBCont, hcm, hre]

/-- C9 witness: the empty-entry-list failure at a concrete environment. -/
theorem emptyEntryList_as_missing_witness :
    resolveEntry envC9.positionals envC9.fileExists (some cfgC9) = none ∧
    resolveEntry envC9.positionals envC9.fileExists
      (some { cfgC9 with entry := none }) = none ∧
    mainA envC9 = [Event.loadCfg, Event.err noEntryMsg, Event.exit 1] ∧
    mainB envC9 = [Event.loadCfg, Event.log "Using tsbun.config.ts...",
      Event.err noEntryMsg, Event.exit 1] :=
  emptyEntryList_as_missing envC9 cfgC9 rfl rfl rfl rfl rfl rfl rfl

/-- C4: when the bundler result has `success = false`, both scripts print
every log message contained in the result (as errors, right before the end
of the run), the process exits with status 1 as the final event, and the
`tsc` type-generation subprocess is never spawned. -/
theorem bundlerFailure_exits1 (env : Env) (e : String)
    (hv : env.version = false) (hh : env.help = false)
    (hE : resolveEntry env.positionals env.fileExists (loadedConfig env) =
      some e)
    (hF : env.buildResult.success = false) :
    (∃ pre, mainA env = pre ++
      (List.map Event.err env.buildResult.logs ++ [Event.exit 1])) ∧
    (∀ args, Event.spawn args ∉ mainA env) ∧
    (∃ pre, mainB env = pre ++
      (List.map Event.err env.buildResult.logs ++ [Event.exit 1])) ∧
    (∀ args, Event.spawn args ∉ mainB env) := by
  simp only [loadedConfig] at hE
  have hE2 : resolveEntry env.positionals env.fileExists
      (loadConfigB env.configExists env.configImport).1 = some e := by
    rw [loadConfigB_config env.cwd]
    exact hE
  have htrA : mainA env =
      ([Event.loadCfg] ++
       (loadConfig env.cwd env.configExists env.configImport).warnings.map
         Event.warn ++
       preBuildA env
         (loadConfig env.cwd env.configExists env.configImport).config
         (loadConfig env.cwd env.configExists env.configImport).path e ++
       [Event.err "Build failed!"]) ++
      (List.map Event.err env.buildResult.logs ++ [Event.exit 1]) := by
    simp [mainA, hv, hh, mainACont, hE, postBuildA, hF, List.append_assoc]
  have htrB : mainB env =
      ([Event.loadCfg] ++
       (loadConfigB env.configExists env.configImport).2.map Event.warn ++
       (if (loadConfigB env.configExists env.configImport).1.isSome then
         [Event.log "Using tsbun.config.ts..."] else []) ++
       [Event.log ("Building " ++ e ++ "...")] ++
       (if env.fileExists
           (resolveOutdir (loadConfigB env.configExists env.configImport).1)
        then [Event.rmDir
           (resolveOutdir (loadConfigB env.configExists env.configImport).1)]
        else []) ++
       [Event.bundle e
         (resolveOutdir (loadConfigB env.configExists env.configImport).1)
         (resolveTarget (loadConfigB env.configExists env.configImport).1)
         (resolveMinify (loadConfigB env.configExists env.configImport).1),
        Event.err "Build failed!"]) ++
      (List.map Event.err env.buildResult.logs ++ [Event.exit 1]) := by
    simp [mainB, hv, hh, mainBCont, hE2, hF, List.append_assoc]
  refine ⟨⟨_, htrA⟩, ?_, ⟨_, htrB⟩, ?_⟩
  · intro args hmem
    rw [htrA] at hmem
    simp only [List.mem_append, List.mem_cons, List.mem_map,
      List.not_mem_nil, reduceCtorEq, or_false, false_or, exists_false,
      false_and, exists_and_right, and_false, or_self] at hmem
    exact spawn_not_mem_preBuildA env _ _ e args (by tauto)
  · intro args hmem
    rw [htrB] at hmem
    cases hc1 : (loadConfigB env.configExists env.configImport).1.isSome <;>
      cases hc2 : env.fileExists
        (resolveOutdir (loadConfigB env.configExists env.configImport).1) <;>
      simp [hc1, hc2] at hmem

/-- C4 witness: a concrete failing bundler result with two diagnostics. -/
theorem bundlerFailure_exits1_witness :
    (∃ pre, mainA envC4 = pre ++
      (List.map Event.err envC4.buildResult.logs ++ [Event.exit 1])) ∧
    (∀ args, Event.spawn args ∉ mainA envC4) ∧
    (∃ pre, mainB envC4 = pre ++
      (List.map Event.err envC4.buildResult.logs ++ [Event.exit 1])) ∧
    (∀ args, Event.spawn args ∉ mainB envC4) :=
  bundlerFailure_exits1 envC4 "cli.ts" rfl rfl rfl rfl
